import Mathlib

/-!
# Offers data model of `satellite/rewards/rewards.go`

A shallow embedding of the `rewards` package: the `Offer` and `NewOffer`
records, the `OfferType` and `OfferStatus` enumerations with their constants,
and the three predicates `Offer.IsEmpty`, `Offer.IsZero` and
`OfferStatus.IsDefault`.

Conventions.

* Go `int` is embedded as `Int`; only equality of integers is used by the
  code, so no wrap-around is involved.
* Go `string` is embedded as `String`; only comparison with `""` is used.
* `currency.USD` is declared outside the file; it is a type parameter `USD`
  with decidable equality (Go `==`) and a zero value.
* `time.Time` is the record of the Go standard library, with its three fields
  `wall`, `ext` and `loc`; `==` on it is field-wise, pointer equality on `loc`.
* Go `==` on a struct compares corresponding fields, which is equality of the
  embedded records.
-/

namespace rewards

/-! ## `time.Time` (Go standard library) -/

/-- A `*time.Location`: `none` is the nil pointer, `some a` a pointer with address `a`. -/
abbrev LocationPtr := Option Nat

/-- The record `time.Time`: `wall uint64`, `ext int64`, `loc *Location`. -/
structure Time where
  wall : Nat
  ext : Int
  loc : LocationPtr
deriving DecidableEq

/-- The composite literal `time.Time{}`. -/
instance : Zero Time := ⟨{ wall := 0, ext := 0, loc := none }⟩

/-- Constant `hasMonotonic = 1 << 63` of package `time`. -/
def hasMonotonic : Nat := 1 <<< 63

/-- Constant `nsecShift = 30` of package `time`. -/
def nsecShift : Nat := 30

/-- Constant `nsecMask = 1<<30 - 1` of package `time`. -/
def nsecMask : Nat := 1 <<< 30 - 1

/-- Constant `secondsPerDay = 86400` of package `time`. -/
def secondsPerDay : Int := 86400

/-- Constant `wallToInternal` of package `time`: seconds from year 1 to 1885. -/
def wallToInternal : Int := (1884 * 365 + 1884 / 4 - 1884 / 100 + 1884 / 400) * secondsPerDay

/-- Method `(*Time).nsec`: `int32(t.wall & nsecMask)`. -/
def Time.nsec (t : Time) : Int := ((t.wall &&& nsecMask : Nat) : Int)

/-- Method `(*Time).sec`: seconds since year 1; `t.wall << 1` is a `uint64` shift. -/
def Time.sec (t : Time) : Int :=
  if t.wall &&& hasMonotonic ≠ 0 then
    wallToInternal + (((t.wall <<< 1 % 2 ^ 64) >>> (nsecShift + 1) : Nat) : Int)
  else
    t.ext

/-- Method `time.Time.IsZero`: `t.sec() == 0 && t.nsec() == 0`. -/
def Time.IsZero (t : Time) : Bool := t.sec == 0 && t.nsec == 0

/-! ## Enumerations -/

/-- The identifier `iota` in the `i`-th ConstSpec of a constant declaration. -/
def iota (i : Nat) : Int := i

/-- Type `OfferType int`. -/
structure OfferType where
  val : Int
deriving DecidableEq

/-- Type `OfferStatus int`. -/
structure OfferStatus where
  val : Int
deriving DecidableEq

/-- Zero value of `OfferType`: the integer 0. -/
instance : Zero OfferType := ⟨⟨0⟩⟩

/-- Zero value of `OfferStatus`: the integer 0. -/
instance : Zero OfferStatus := ⟨⟨0⟩⟩

/-- Constant `Invalid = OfferType(0)`. -/
def Invalid : OfferType := OfferType.mk 0

/-- Constant `FreeCredit = OfferType(1)`. -/
def FreeCredit : OfferType := OfferType.mk 1

/-- Constant `Referral = OfferType(2)`. -/
def Referral : OfferType := OfferType.mk 2

/-- Constant `Partner = OfferType(3)`. -/
def Partner : OfferType := OfferType.mk 3

/-- Constant `Done = OfferStatus(iota)`, first ConstSpec of its declaration. -/
def Done : OfferStatus := OfferStatus.mk (iota 0)

/-- Constant `Default`, second ConstSpec: the expression `OfferStatus(iota)` repeated. -/
def Default : OfferStatus := OfferStatus.mk (iota 1)

/-- Constant `Active`, third ConstSpec: the expression `OfferStatus(iota)` repeated. -/
def Active : OfferStatus := OfferStatus.mk (iota 2)

/-- Method `OfferStatus.IsDefault`: `status == Default`. -/
def OfferStatus.IsDefault (status : OfferStatus) : Bool := decide (status = Default)

/-! ## Records -/

/-- Struct `NewOffer`, fields in declaration order (`Type_` is the field `Type`). -/
structure NewOffer (USD : Type) where
  Name : String
  Description : String
  AwardCredit : USD
  InviteeCredit : USD
  RedeemableCap : Int
  AwardCreditDurationDays : Int
  InviteeCreditDurationDays : Int
  ExpiresAt : Time
  Status : OfferStatus
  Type_ : OfferType
deriving DecidableEq

/-- Struct `Offer`, fields in declaration order (`Type_` is the field `Type`). -/
structure Offer (USD : Type) where
  ID : Int
  Name : String
  Description : String
  AwardCredit : USD
  InviteeCredit : USD
  AwardCreditDurationDays : Int
  InviteeCreditDurationDays : Int
  RedeemableCap : Int
  ExpiresAt : Time
  CreatedAt : Time
  Status : OfferStatus
  Type_ : OfferType
deriving DecidableEq

section
variable {USD : Type}

/-- The composite literal `Offer{}`: every field at the zero value of its type. -/
instance [Zero USD] : Zero (Offer USD) :=
  ⟨{ ID := 0, Name := "", Description := "", AwardCredit := 0, InviteeCredit := 0,
     AwardCreditDurationDays := 0, InviteeCreditDurationDays := 0, RedeemableCap := 0,
     ExpiresAt := 0, CreatedAt := 0, Status := 0, Type_ := 0 }⟩

/-- Method `Offer.IsEmpty`: `offer.Name == ""`. -/
def Offer.IsEmpty (offer : Offer USD) : Bool := decide (offer.Name = "")

/-- Method `Offer.IsZero`: `offer == Offer{}`. -/
def Offer.IsZero [DecidableEq USD] [Zero USD] (offer : Offer USD) : Bool := decide (offer = 0)

/-- The `NewOffer` made of the fields of an `Offer` that `NewOffer` declares. -/
def Offer.toNewOffer (offer : Offer USD) : NewOffer USD :=
  { Name := offer.Name, Description := offer.Description,
    AwardCredit := offer.AwardCredit, InviteeCredit := offer.InviteeCredit,
    RedeemableCap := offer.RedeemableCap,
    AwardCreditDurationDays := offer.AwardCreditDurationDays,
    InviteeCreditDurationDays := offer.InviteeCreditDurationDays,
    ExpiresAt := offer.ExpiresAt, Status := offer.Status, Type_ := offer.Type_ }

/-- An `Offer` as the triple of its `NewOffer` fields, its `ID` and its `CreatedAt`. -/
def Offer.split (offer : Offer USD) : NewOffer USD × Int × Time :=
  (offer.toNewOffer, offer.ID, offer.CreatedAt)

/-- The `Offer` with the fields of a `NewOffer`, an `ID` and a `CreatedAt`. -/
def Offer.join (p : NewOffer USD × Int × Time) : Offer USD :=
  { ID := p.2.1, Name := p.1.Name, Description := p.1.Description,
    AwardCredit := p.1.AwardCredit, InviteeCredit := p.1.InviteeCredit,
    AwardCreditDurationDays := p.1.AwardCreditDurationDays,
    InviteeCreditDurationDays := p.1.InviteeCreditDurationDays,
    RedeemableCap := p.1.RedeemableCap,
    ExpiresAt := p.1.ExpiresAt, CreatedAt := p.2.2, Status := p.1.Status, Type_ := p.1.Type_ }

end

/-! ## Unfolding lemmas -/

theorem time_zero_def : (0 : Time) = { wall := 0, ext := 0, loc := none } := rfl

theorem offerType_zero_def : (0 : OfferType) = OfferType.mk 0 := rfl

theorem offerStatus_zero_def : (0 : OfferStatus) = OfferStatus.mk 0 := rfl

theorem Done_def : Done = OfferStatus.mk 0 := rfl

theorem Default_def : Default = OfferStatus.mk 1 := rfl

theorem Active_def : Active = OfferStatus.mk 2 := rfl

theorem offer_zero_def {USD : Type} [Zero USD] :
    (0 : Offer USD) =
      { ID := 0, Name := "", Description := "", AwardCredit := 0, InviteeCredit := 0,
        AwardCreditDurationDays := 0, InviteeCreditDurationDays := 0, RedeemableCap := 0,
        ExpiresAt := 0, CreatedAt := 0, Status := 0, Type_ := 0 } := rfl

theorem wallToInternal_pos : 0 < wallToInternal := by decide

/-- The value of `time.Time.IsZero` does not depend on the location pointer. -/
theorem Time.isZero_loc (w : Nat) (e : Int) (l l' : LocationPtr) :
    (Time.mk w e l).IsZero = (Time.mk w e l').IsZero := rfl

/-- A `time.Time` with zero `wall` and `ext` has `IsZero()` true, whatever its location. -/
theorem Time.isZero_zero_loc (l : LocationPtr) : (Time.mk 0 0 l).IsZero = true :=
  (Time.isZero_loc 0 0 l none).trans (by decide)

/-- The body of `time.Time.IsZero` agrees with its later formulation
`t.wall&hasMonotonic == 0 && t.ext == 0 && t.wall&nsecMask == 0`. -/
theorem Time.isZero_iff (t : Time) :
    t.IsZero = true ↔ t.wall &&& hasMonotonic = 0 ∧ t.ext = 0 ∧ t.wall &&& nsecMask = 0 := by
  unfold Time.IsZero Time.sec Time.nsec
  by_cases hm : t.wall &&& hasMonotonic = 0
  · simp [hm]
  · have hpos := wallToInternal_pos
    have hnn := Int.ofNat_nonneg ((t.wall <<< 1 % 2 ^ 64) >>> (nsecShift + 1))
    simp only [ne_eq, hm, not_false_eq_true, if_true, false_and, iff_false,
      Bool.and_eq_true, beq_iff_eq, not_and]
    intro h
    exact absurd h (by omega)

/-! ## The enumerations -/

/-- C4: the `OfferType` constants are `Invalid = 0`, `FreeCredit = 1`, `Referral = 2`,
`Partner = 3`, the `OfferStatus` constants are `Done = 0`, `Default = 1`, `Active = 2`,
and the constants of each type are pairwise distinct. -/
theorem enum_constant_values :
    Invalid.val = 0 ∧ FreeCredit.val = 1 ∧ Referral.val = 2 ∧ Partner.val = 3 ∧
    Done.val = 0 ∧ Default.val = 1 ∧ Active.val = 2 ∧
    List.Pairwise (fun a b => a ≠ b) [Invalid, FreeCredit, Referral, Partner] ∧
    List.Pairwise (fun a b => a ≠ b) [Done, Default, Active] := by
  decide

/-- C3: for every `OfferStatus` value `s`, whatever its integer, `s.IsDefault()` is true
exactly when `s` equals `Default` (its integer is 1); `Default.IsDefault()` is true,
`Done.IsDefault()` and `Active.IsDefault()` are false. -/
theorem OfferStatus.isDefault_iff (s : OfferStatus) :
    (s.IsDefault = true ↔ s = Default) ∧
    (∀ n : Int, (OfferStatus.mk n).IsDefault = true ↔ n = 1) ∧
    Default.IsDefault = true ∧ Done.IsDefault = false ∧ Active.IsDefault = false := by
  refine ⟨by simp [OfferStatus.IsDefault], ?_, by decide, by decide, by decide⟩
  intro n
  simp [OfferStatus.IsDefault, Default_def]

/-! ## `Offer.IsEmpty` -/

/-- C2: for every `Offer`, `IsEmpty()` is true exactly when `Name` is the empty string,
so two offers with the same `Name` have the same `IsEmpty()` whatever their other
fields; `Offer{Name: "Summer Promo"}.IsEmpty()` is false and `Offer{}.IsEmpty()` is true. -/
theorem Offer.isEmpty_iff_name {USD : Type} [Zero USD] (o : Offer USD) :
    (o.IsEmpty = true ↔ o.Name = "") ∧
    (∀ o' : Offer USD, o'.Name = o.Name → o'.IsEmpty = o.IsEmpty) ∧
    ({ (0 : Offer USD) with Name := "Summer Promo" }).IsEmpty = false ∧
    (0 : Offer USD).IsEmpty = true := by
  refine ⟨by simp [Offer.IsEmpty], ?_, ?_, ?_⟩
  · intro o' h
    simp [Offer.IsEmpty, h]
  · simp [Offer.IsEmpty]
  · simp [Offer.IsEmpty, offer_zero_def]

/-- Witness of C2 on offers over `Int` amounts: an offer with ID 7 and empty name. -/
theorem Offer.isEmpty_iff_name_witness :
    ({ (0 : Offer Int) with ID := 7 }).Name = (0 : Offer Int).Name ∧
    ({ (0 : Offer Int) with ID := 7 }).IsEmpty = (0 : Offer Int).IsEmpty :=
  ⟨rfl, (Offer.isEmpty_iff_name (0 : Offer Int)).2.1 _ rfl⟩

/-! ## `Offer.IsZero` -/

/-- C1: for every `Offer`, `IsZero()` is true exactly when each of the twelve fields
equals the zero value of its type; `Offer{}.IsZero()` is true; and `Offer{}` with any
single field replaced by a non-zero value has `IsZero()` false. -/
theorem Offer.isZero_iff_fields {USD : Type} [DecidableEq USD] [Zero USD] (o : Offer USD) :
    (o.IsZero = true ↔
      o.ID = 0 ∧ o.Name = "" ∧ o.Description = "" ∧ o.AwardCredit = 0 ∧
      o.InviteeCredit = 0 ∧ o.AwardCreditDurationDays = 0 ∧
      o.InviteeCreditDurationDays = 0 ∧ o.RedeemableCap = 0 ∧
      o.ExpiresAt = 0 ∧ o.CreatedAt = 0 ∧ o.Status = 0 ∧ o.Type_ = 0) ∧
    (0 : Offer USD).IsZero = true ∧
    (∀ v : Int, v ≠ 0 → ({ (0 : Offer USD) with ID := v }).IsZero = false) ∧
    (∀ v : String, v ≠ "" → ({ (0 : Offer USD) with Name := v }).IsZero = false) ∧
    (∀ v : String, v ≠ "" → ({ (0 : Offer USD) with Description := v }).IsZero = false) ∧
    (∀ v : USD, v ≠ 0 → ({ (0 : Offer USD) with AwardCredit := v }).IsZero = false) ∧
    (∀ v : USD, v ≠ 0 → ({ (0 : Offer USD) with InviteeCredit := v }).IsZero = false) ∧
    (∀ v : Int, v ≠ 0 →
      ({ (0 : Offer USD) with AwardCreditDurationDays := v }).IsZero = false) ∧
    (∀ v : Int, v ≠ 0 →
      ({ (0 : Offer USD) with InviteeCreditDurationDays := v }).IsZero = false) ∧
    (∀ v : Int, v ≠ 0 → ({ (0 : Offer USD) with RedeemableCap := v }).IsZero = false) ∧
    (∀ v : Time, v ≠ 0 → ({ (0 : Offer USD) with ExpiresAt := v }).IsZero = false) ∧
    (∀ v : Time, v ≠ 0 → ({ (0 : Offer USD) with CreatedAt := v }).IsZero = false) ∧
    (∀ v : OfferStatus, v ≠ 0 → ({ (0 : Offer USD) with Status := v }).IsZero = false) ∧
    (∀ v : OfferType, v ≠ 0 → ({ (0 : Offer USD) with Type_ := v }).IsZero = false) := by
  refine ⟨?_, by simp [Offer.IsZero], ?_, ?_, ?_, ?_, ?_, ?_, ?_, ?_, ?_, ?_, ?_, ?_⟩
  · cases o
    simp [Offer.IsZero, offer_zero_def]
  all_goals
    intro v hv
    simp [Offer.IsZero, offer_zero_def, hv]

/-- Witness of C1 on offers over `Int` amounts: `Offer{ID: 5}` is not zero. -/
theorem Offer.isZero_iff_fields_witness :
    (5 : Int) ≠ 0 ∧ ({ (0 : Offer Int) with ID := 5 }).IsZero = false :=
  ⟨by decide, (Offer.isZero_iff_fields (0 : Offer Int)).2.2.1 5 (by decide)⟩

/-! ## `IsZero` against `IsEmpty` and the enumerations -/

/-- C6: for every `Offer`, `IsZero()` true implies `IsEmpty()` true, and the converse
fails: the offer with `Name` `""` and `ID` 1 has `IsEmpty()` true and `IsZero()` false. -/
theorem Offer.isZero_imp_isEmpty_strict {USD : Type} [DecidableEq USD] [Zero USD] :
    (∀ o : Offer USD, o.IsZero = true → o.IsEmpty = true) ∧
    ∃ o : Offer USD, o.Name = "" ∧ o.ID = 1 ∧ o.IsEmpty = true ∧ o.IsZero = false := by
  constructor
  · intro o h
    have hn : o.Name = "" := by
      have := of_decide_eq_true h
      rw [this]
      rfl
    simp [Offer.IsEmpty, hn]
  · exact ⟨{ (0 : Offer USD) with ID := 1 }, rfl, rfl, by simp [Offer.IsEmpty, offer_zero_def],
      by simp [Offer.IsZero, offer_zero_def]⟩

/-- Witness of C6 on offers over `Int` amounts: `Offer{}` is zero, hence empty. -/
theorem Offer.isZero_imp_isEmpty_strict_witness :
    (0 : Offer Int).IsZero = true ∧ (0 : Offer Int).IsEmpty = true :=
  ⟨by decide, Offer.isZero_imp_isEmpty_strict.1 (0 : Offer Int) (by decide)⟩

/-- C7: the zero value of `OfferStatus` is `Done` and not `Default`, the zero value of
`OfferType` is `Invalid`, and every `Offer` with `IsZero()` true has `Status` equal to
`Done`, `Type` equal to `Invalid` and `Status.IsDefault()` false. -/
theorem Offer.isZero_status_type {USD : Type} [DecidableEq USD] [Zero USD] (o : Offer USD)
    (h : o.IsZero = true) :
    (0 : OfferStatus) = Done ∧ (0 : OfferStatus) ≠ Default ∧ (0 : OfferType) = Invalid ∧
    o.Status = Done ∧ o.Type_ = Invalid ∧ o.Status.IsDefault = false := by
  have ho : o = 0 := of_decide_eq_true h
  subst ho
  refine ⟨rfl, by decide, rfl, rfl, rfl, ?_⟩
  simp only [offer_zero_def]
  decide

/-- Witness of C7 on offers over `Int` amounts: the offer `Offer{}`. -/
theorem Offer.isZero_status_type_witness :
    (0 : Offer Int).IsZero = true ∧ (0 : Offer Int).Status = Done ∧
    (0 : Offer Int).Type_ = Invalid ∧ (0 : Offer Int).Status.IsDefault = false :=
  ⟨by decide, (Offer.isZero_status_type (0 : Offer Int) (by decide)).2.2.2⟩

/-- C8: `Offer.IsZero` compares the two time fields with `time.Time{}` by `==`, not by
`time.Time.IsZero`: there is an `Offer` whose ten other fields are zero and whose
`ExpiresAt` and `CreatedAt` have `time.Time.IsZero()` true (the zero wall and ext
readings with a non-nil location pointer) while `Offer.IsZero()` is false. -/
theorem Offer.isZero_not_time_isZero {USD : Type} [DecidableEq USD] [Zero USD] :
    ∃ o : Offer USD,
      o.ID = 0 ∧ o.Name = "" ∧ o.Description = "" ∧ o.AwardCredit = 0 ∧
      o.InviteeCredit = 0 ∧ o.AwardCreditDurationDays = 0 ∧
      o.InviteeCreditDurationDays = 0 ∧ o.RedeemableCap = 0 ∧ o.Status = 0 ∧ o.Type_ = 0 ∧
      o.ExpiresAt.IsZero = true ∧ o.CreatedAt.IsZero = true ∧
      o.ExpiresAt.loc ≠ none ∧ o.CreatedAt.loc ≠ none ∧
      o.ExpiresAt = { (0 : Time) with loc := some 1 } ∧
      o.CreatedAt = { (0 : Time) with loc := some 1 } ∧
      o.IsZero = false := by
  refine ⟨{ (0 : Offer USD) with
      ExpiresAt := { (0 : Time) with loc := some 1 },
      CreatedAt := { (0 : Time) with loc := some 1 } },
    rfl, rfl, rfl, rfl, rfl, rfl, rfl, rfl, rfl, rfl, Time.isZero_zero_loc (some 1),
    Time.isZero_zero_loc (some 1), Option.some_ne_none 1, Option.some_ne_none 1, rfl, rfl, ?_⟩
  simp [Offer.IsZero, offer_zero_def, time_zero_def]

/-! ## `NewOffer` and `Offer` -/

/-- C5: `NewOffer` has the fields of `Offer` other than `ID` and `CreatedAt`: sending an
`Offer` to its `NewOffer` fields, its `ID` and its `CreatedAt` is a bijection onto the
triples, with `Offer.join` as its two-sided inverse. -/
theorem Offer.split_bijective {USD : Type} :
    Function.Bijective (Offer.split : Offer USD → NewOffer USD × Int × Time) ∧
    Function.LeftInverse (Offer.join : NewOffer USD × Int × Time → Offer USD) Offer.split ∧
    Function.RightInverse (Offer.join : NewOffer USD × Int × Time → Offer USD)
      Offer.split := by
  have hl : Function.LeftInverse (Offer.join : NewOffer USD × Int × Time → Offer USD)
      Offer.split := fun o => by cases o; rfl
  have hr : Function.RightInverse (Offer.join : NewOffer USD × Int × Time → Offer USD)
      Offer.split := fun p => by
    obtain ⟨n, i, t⟩ := p
    cases n
    rfl
  exact ⟨⟨hl.injective, hr.surjective⟩, hl, hr⟩

end rewards
